import Mathlib

/-!
A shallow embedding, in Lean, of the core of the saas_finder repository:
the revenue extraction heuristics (saas_finder/extractors/revenue.py and
saas_finder/parsers/mrr.py), the product-URL extractor
(saas_finder/extractors/urls.py), the idea scorer
(saas_finder/scoring/scorer.py) and the scraper manager
(saas_finder/twitter/scrapers/scraper_manager.py), together with theorems
settling each specification claim.

Modelling conventions:
* Python floats are modelled as exact rationals (ℚ).  Every comparison the
  embedded code performs is against coarse constants (0, 100, 0.05, 1.0,
  100000000, ...) on values far from the precision limits of IEEE doubles,
  so the verdicts agree with the source.
* Python ints are ℤ (they are unbounded in Python as well).
* Fallible operations (float(...) raising ValueError, a regex group that is
  absent) are Option-valued; exception handlers in the source become the
  none branches.
* The regular-expression engine itself is not re-implemented.  A function
  that scans a text with a fixed pattern table receives, per pattern, the
  list of matches that Python's re.finditer finds, as an explicit argument
  (structure ReMatch below).  Concrete theorems instantiate those lists
  with matches that are easy to re-check by hand against the pattern.
-/

namespace SaasFinder

/-- Python's `s.lower()` for the ASCII text this code handles (tweet text,
keywords, URL hosts); implemented structurally so concrete instances
evaluate. -/
def pyLower (s : String) : String :=
  String.mk (s.data.map Char.toLower)

/-- Python's `s.upper()` for ASCII text. -/
def pyUpper (s : String) : String :=
  String.mk (s.data.map Char.toUpper)

/-- Python's substring test `needle in haystack` on strings. -/
def pyIn (needle haystack : String) : Bool :=
  haystack.data.tails.any (fun t => needle.data.isPrefixOf t)

/-- Python's `s.split(sep)` for a one-character separator, on the character
list of the string. -/
def splitOnChar (sep : Char) : List Char → List (List Char)
  | [] => [[]]
  | c :: rest =>
    let r := splitOnChar sep rest
    if c = sep then [] :: r
    else
      match r with
      | h :: t => (c :: h) :: t
      | [] => [[c]]

/-- Python's `s.replace(",", "")` as used on matched amount strings. -/
def stripCommas (s : String) : String :=
  String.mk (s.data.filter (fun c => c ≠ ','))

/-- Numeric value of a digit run (most significant first). -/
def digitsVal (cs : List Char) : ℕ :=
  cs.foldl (fun acc c => 10 * acc + (c.toNat - 48)) 0

/-- Models Python `float(s)` on the comma-free numeric strings the revenue
regexes produce: an optional integer part and an optional fractional part
around at most one dot, with at least one digit overall.  Any other string
is a parse failure (`ValueError` in the source).  The value is kept exact
as a rational. -/
def pyFloat (s : String) : Option ℚ :=
  match splitOnChar '.' s.data with
  | [intPart] =>
    if intPart ≠ [] ∧ intPart.all Char.isDigit then
      some (digitsVal intPart : ℚ)
    else none
  | [intPart, fracPart] =>
    if (intPart ++ fracPart) ≠ [] ∧ (intPart ++ fracPart).all Char.isDigit then
      some ((digitsVal intPart : ℚ) +
        (digitsVal fracPart : ℚ) / (10 : ℚ) ^ fracPart.length)
    else none
  | _ => none

/-- Models Python `int(s)` for a string of decimal digits (the only shape
fed to it by the embedded code, from a `(\d+)` capture). -/
def pyParseInt (s : String) : Option ℕ :=
  if s.data ≠ [] ∧ s.data.all Char.isDigit then some (digitsVal s.data) else none

/-- Python `int(x)` on a float: truncation toward zero. -/
def pyTrunc (q : ℚ) : ℤ :=
  if 0 ≤ q then ⌊q⌋ else -⌊-q⌋

/-- Stable insert used by `stableSortDesc`: the new element goes after every
element whose key is at least its own. -/
def insertByDesc {α : Type} (key : α → ℚ) (r : α) : List α → List α
  | [] => [r]
  | x :: xs => if key x < key r then r :: x :: xs else x :: insertByDesc key r xs

/-- Stable sort by descending key.  Python's `list.sort(key=..., reverse=True)`
is a stable descending sort; the stable descending permutation of a list is
unique, so this insertion sort computes exactly the source's result. -/
def stableSortDesc {α : Type} (key : α → ℚ) (l : List α) : List α :=
  l.foldl (fun acc r => insertByDesc key r acc) []

theorem mem_insertByDesc {α : Type} (key : α → ℚ) (r : α) (l : List α) (a : α) :
    a ∈ insertByDesc key r l ↔ a = r ∨ a ∈ l := by
  induction l with
  | nil => simp [insertByDesc]
  | cons x xs ih =>
    simp only [insertByDesc]
    split
    · simp [List.mem_cons]
    · simp [List.mem_cons, ih]
      tauto

theorem mem_stableSortDesc {α : Type} (key : α → ℚ) (l : List α) (a : α) :
    a ∈ stableSortDesc key l ↔ a ∈ l := by
  have h : ∀ (l : List α) (acc : List α),
      a ∈ l.foldl (fun acc r => insertByDesc key r acc) acc ↔ a ∈ l ∨ a ∈ acc := by
    intro l
    induction l with
    | nil => simp
    | cons x xs ih =>
      intro acc
      simp only [List.foldl_cons, ih, mem_insertByDesc, List.mem_cons]
      tauto
  simpa [stableSortDesc] using h l []

/-- One regular-expression match, standing in for a Python `re.Match`
object: `g0` is group(0), the whole matched substring; `g1` is group(1),
the first capture; `g2` is group(2) when the pattern has a second capture
group (`none` both when an optional second group did not participate and
when the pattern has no second group, where Python's `m.group(2)` would
not produce a string either). -/
structure ReMatch where
  g0 : String
  g1 : String
  g2 : Option String := none
deriving DecidableEq, Repr

namespace Models

/-- RevenueType from saas_finder/twitter/models.py. -/
inductive RevenueType
  | MRR
  | ARR
  | MONTHLY
  | UNKNOWN
deriving DecidableEq, Repr

/-- ExtractedRevenue from saas_finder/twitter/models.py.  `amount` is a
Python int there, `confidence` a float. -/
structure ExtractedRevenue where
  raw_match : String
  amount : ℤ
  type : RevenueType
  confidence : ℚ
  has_screenshot : Bool := false
deriving DecidableEq, Repr

/-- ExtractedProduct from saas_finder/twitter/models.py. -/
structure ExtractedProduct where
  url : String
  name : Option String := none
  domain : String
  is_valid_product : Bool := true
deriving DecidableEq, Repr

end Models

namespace Revenue

/-! RevenueExtractor from saas_finder/extractors/revenue.py. -/

/-- The (revenue-kind, base-confidence) columns of RevenueExtractor.PATTERNS
in source order; the regex column of each row is recalled in the comment.
A search run supplies, per row, the list of matches that regex finds. -/
def PATTERNS : List (Models.RevenueType × ℚ) := [
  -- dollar amount, optional k suffix, then MRR
  (Models.RevenueType.MRR, 95/100),
  -- dollar amount, optional k suffix, then ARR
  (Models.RevenueType.ARR, 95/100),
  -- dollar amount, optional k suffix, then /month, per month, monthly or /mo
  (Models.RevenueType.MONTHLY, 90/100),
  -- making/hit/crossed/reached/at, then a dollar amount with optional k
  (Models.RevenueType.UNKNOWN, 75/100),
  -- bare amount with mandatory k suffix, then MRR / in revenue / revenue
  (Models.RevenueType.MRR, 80/100),
  -- dollar amount, optional k, then optional "in" and "monthly", "revenue"
  (Models.RevenueType.MONTHLY, 85/100),
  -- a single digit 4-7, then "figure", then MRR/ARR/revenue
  (Models.RevenueType.UNKNOWN, 70/100),
  -- just passed / now at / currently at, then a dollar amount, optional k
  (Models.RevenueType.UNKNOWN, 70/100),
  -- growing to / scaled to / grew to, dollar amount, optional k, opt. MRR
  (Models.RevenueType.MRR, 75/100),
  -- dollar amount, optional k, then /mo
  (Models.RevenueType.MONTHLY, 85/100),
  -- revenue:/mrr:/arr: then a dollar amount with optional k
  (Models.RevenueType.MRR, 90/100),
  -- from $0 to a dollar amount with optional k
  (Models.RevenueType.UNKNOWN, 70/100)]

/-- RevenueExtractor.FIGURE_ESTIMATES as a lookup with the dict's
`.get(figure, 0)` default. -/
def FIGURE_ESTIMATES (figure : String) : ℤ :=
  if figure = "4" then 5000
  else if figure = "5" then 50000
  else if figure = "6" then 500000
  else if figure = "7" then 5000000
  else 0

/-- RevenueExtractor.SCREENSHOT_KEYWORDS.  The last six entries are the
literal (mojibake) characters stored in the source file. -/
def SCREENSHOT_KEYWORDS : List String := [
  "screenshot", "proof", "stripe", "dashboard",
  "pic", "image", "attached", "below", "stats",
  "ðŸ‘‡", "ðŸ“Š",
  "ðŸ“ˆ", "ðŸ’°",
  "ðŸš€", "ðŸ’µ"]

/-- RevenueExtractor._check_screenshot_indicators. -/
def check_screenshot_indicators (text : String) : Bool :=
  SCREENSHOT_KEYWORDS.any (fun kw => pyIn kw (pyLower text))

/-- RevenueExtractor._parse_match.  Python returns `(None, 0.0)` on failure
and the failure is filtered by the caller; both failure shapes are `none`
here.  The truncation `int(amount)` is `pyTrunc`. -/
def parse_match (m : ReMatch) (base_confidence : ℚ) : Option (ℤ × ℚ) :=
  if pyIn "figure" (pyLower m.g0) then
    some (FIGURE_ESTIMATES m.g1, base_confidence)
  else
    match pyFloat (stripCommas m.g1) with
    | none => none
    | some amount0 =>
      let amount :=
        match m.g2 with
        | some k => if pyLower k = "k" then amount0 * 1000 else amount0
        | none => amount0
      if amount ≤ 0 then none
      else if 100000000 < amount then none
      else some (pyTrunc amount, base_confidence)

/-- Flattens per-pattern match lists into (pattern row, match) pairs in the
evaluation order of the source's nested loops. -/
def patternMatches (ms : List (List ReMatch)) :
    List ((Models.RevenueType × ℚ) × ReMatch) :=
  (PATTERNS.zip ms).flatMap (fun pm => pm.2.map (fun m => (pm.1, m)))

/-- The body of RevenueExtractor.extract: keep the strictly best-confidence
candidate, boosting confidence when a screenshot keyword occurs in the
text.  `best` carries (best_match, best_confidence), initially (None, 0.0). -/
def extractGo (hs : Bool) :
    List ((Models.RevenueType × ℚ) × ReMatch) →
    Option Models.ExtractedRevenue × ℚ → Option Models.ExtractedRevenue × ℚ
  | [], best => best
  | (pt, m) :: rest, best =>
    match parse_match m pt.2 with
    | none => extractGo hs rest best
    | some (amount, conf0) =>
      if amount ≤ 0 then extractGo hs rest best
      else
        let confidence := if hs then min (conf0 + 1/10) 1 else conf0
        if best.2 < confidence then
          extractGo hs rest (some ⟨m.g0, amount, pt.1, confidence, hs⟩, confidence)
        else extractGo hs rest best

/-- RevenueExtractor.extract.  `ms` is the per-pattern match list produced
by re.finditer on `text` (cf. ReMatch). -/
def extract (text : String) (ms : List (List ReMatch)) :
    Option Models.ExtractedRevenue :=
  if text = "" then none
  else (extractGo (check_screenshot_indicators text) (patternMatches ms) (none, 0)).1

/-- The collection loop of RevenueExtractor.extract_all, with its
`seen_amounts` duplicate-amount suppression. -/
def extractAllGo (hs : Bool) :
    List ℤ → List ((Models.RevenueType × ℚ) × ReMatch) →
    List Models.ExtractedRevenue
  | _, [] => []
  | seen, (pt, m) :: rest =>
    match parse_match m pt.2 with
    | none => extractAllGo hs seen rest
    | some (amount, conf0) =>
      if amount ≤ 0 then extractAllGo hs seen rest
      else if amount ∈ seen then extractAllGo hs seen rest
      else
        let confidence := if hs then min (conf0 + 1/10) 1 else conf0
        ⟨m.g0, amount, pt.1, confidence, hs⟩ ::
          extractAllGo hs (amount :: seen) rest

/-- RevenueExtractor.extract_all: collect every distinct-amount candidate,
then sort by descending confidence (stably, as Python's sort does). -/
def extract_all (text : String) (ms : List (List ReMatch)) :
    List Models.ExtractedRevenue :=
  if text = "" then []
  else
    stableSortDesc (fun r => r.confidence)
      (extractAllGo (check_screenshot_indicators text) [] (patternMatches ms))

/-- RevenueExtractor.is_revenue_tweet. -/
def is_revenue_tweet (text : String) (ms : List (List ReMatch))
    (min_confidence : ℚ := 1/2) : Bool :=
  match extract text ms with
  | none => false
  | some r => min_confidence ≤ r.confidence

end Revenue

namespace Mrr

/-! MRRParser from saas_finder/parsers/mrr.py. -/

/-- RevenueType from saas_finder/parsers/mrr.py (this enum has a REVENUE
member that the twitter models enum lacks). -/
inductive RevenueType
  | MRR
  | ARR
  | MONTHLY
  | REVENUE
  | UNKNOWN
deriving DecidableEq, Repr

/-- RevenueData from saas_finder/parsers/mrr.py; `amount` and `confidence`
are Python floats. -/
structure RevenueData where
  amount : ℚ
  type : RevenueType
  raw_text : String
  confidence : ℚ
deriving DecidableEq, Repr

/-- RevenueData.monthly_equivalent. -/
def monthly_equivalent (r : RevenueData) : ℚ :=
  if r.type = RevenueType.ARR then r.amount / 12 else r.amount

/-- MRRParser._parse_amount; `float(cleaned)` can raise ValueError, hence
the Option. -/
def parse_amount (amount_str : String) (multiply_k : Bool) : Option ℚ :=
  (pyFloat (stripCommas amount_str)).map (fun a => if multiply_k then a * 1000 else a)

/-- The source's recurring idiom
`'k' in m.group(0).lower() and 'k' not in m.group(1).lower()`. -/
def kFlag (m : ReMatch) : Bool :=
  pyIn "k" (pyLower m.g0) && !pyIn "k" (pyLower m.g1)

/-- Extractor lambda of MRRParser.PATTERNS row 1: dollar amount with
optional k, then MRR or ARR (group 2). -/
def extractor1 (m : ReMatch) : Option (ℚ × RevenueType × ℚ) := do
  let a ← parse_amount m.g1 (kFlag m)
  let g2 ← m.g2
  pure (a, if pyUpper g2 = "MRR" then RevenueType.MRR else RevenueType.ARR, 95/100)

/-- Row 2: dollar amount with mandatory k suffix, then MRR or ARR. -/
def extractor2 (m : ReMatch) : Option (ℚ × RevenueType × ℚ) := do
  let a ← parse_amount m.g1 true
  let g2 ← m.g2
  pure (a, if pyUpper g2 = "MRR" then RevenueType.MRR else RevenueType.ARR, 95/100)

/-- Row 3: dollar amount, optional k, then /month, /mo or per month. -/
def extractor3 (m : ReMatch) : Option (ℚ × RevenueType × ℚ) := do
  let a ← parse_amount m.g1 (kFlag m)
  pure (a, RevenueType.MONTHLY, 90/100)

/-- Row 4: bare amount with mandatory k, then /month, /mo or per month. -/
def extractor4 (m : ReMatch) : Option (ℚ × RevenueType × ℚ) := do
  let a ← parse_amount m.g1 true
  pure (a, RevenueType.MONTHLY, 75/100)

/-- Row 5: dollar amount, optional k, then optional "monthly", "revenue". -/
def extractor5 (m : ReMatch) : Option (ℚ × RevenueType × ℚ) := do
  let a ← parse_amount m.g1 (kFlag m)
  pure (a, RevenueType.REVENUE, 80/100)

/-- Row 6: hit/reached/crossed/passed, then dollar amount, optional k. -/
def extractor6 (m : ReMatch) : Option (ℚ × RevenueType × ℚ) := do
  let a ← parse_amount m.g1 (kFlag m)
  pure (a, RevenueType.UNKNOWN, 70/100)

/-- Row 7: making, then dollar amount, optional k, optional month word. -/
def extractor7 (m : ReMatch) : Option (ℚ × RevenueType × ℚ) := do
  let a ← parse_amount m.g1 (kFlag m)
  pure (a, RevenueType.MONTHLY, 75/100)

/-- Row 8: N paying customers at a dollar price; the MRR is the product
`int(group(1)) * float(group(2))`. -/
def extractor8 (m : ReMatch) : Option (ℚ × RevenueType × ℚ) := do
  let n ← pyParseInt (stripCommas m.g1)
  let g2 ← m.g2
  let p ← pyFloat (stripCommas g2)
  pure ((n : ℚ) * p, RevenueType.MRR, 65/100)

/-- The extractor column of MRRParser.PATTERNS, in source order. -/
def EXTRACTORS : List (ReMatch → Option (ℚ × RevenueType × ℚ)) :=
  [extractor1, extractor2, extractor3, extractor4,
   extractor5, extractor6, extractor7, extractor8]

/-- The context-keyword reclassification inside MRRParser.parse: an UNKNOWN
kind is retyped from keywords of the (lower-cased) whole text, with a
confidence bonus; other kinds pass through unchanged. -/
def reclassify (textLower : String) :
    RevenueType → ℚ → RevenueType × ℚ
  | RevenueType.UNKNOWN, conf =>
    if pyIn "mrr" textLower then (RevenueType.MRR, conf + 1/10)
    else if pyIn "arr" textLower then (RevenueType.ARR, conf + 1/10)
    else if ["month", "monthly", "/mo"].any (fun kw => pyIn kw textLower) then
      (RevenueType.MONTHLY, conf + 1/20)
    else (RevenueType.UNKNOWN, conf)
  | t, conf => (t, conf)

/-- The per-match body of MRRParser.parse's loop: run the extractor, skip
amounts below 100, reclassify UNKNOWN kinds, cap confidence at 1.0. -/
def mkCandidate (textLower : String) (m : ReMatch)
    (ext : ReMatch → Option (ℚ × RevenueType × ℚ)) : Option RevenueData :=
  match ext m with
  | none => none
  | some (amount, revType, conf) =>
    if amount < 100 then none
    else
      let rc := reclassify textLower revType conf
      some ⟨amount, rc.1, m.g0, min rc.2 1⟩

/-- The collection loop of MRRParser.parse over all (extractor, match)
pairs. -/
def collectMatches (textLower : String) :
    List ((ReMatch → Option (ℚ × RevenueType × ℚ)) × ReMatch) → List RevenueData
  | [] => []
  | (ext, m) :: rest =>
    match mkCandidate textLower m ext with
    | none => collectMatches textLower rest
    | some r => r :: collectMatches textLower rest

/-- The duplicate test of MRRParser._deduplicate: an already-kept entry with
positive amount within 10 percent relative distance. -/
def isDuplicateOf (r e : RevenueData) : Bool :=
  0 < e.amount && |r.amount - e.amount| / e.amount < 1/10

/-- MRRParser._deduplicate: walk the candidates in descending-confidence
order, keeping each one that duplicates no kept entry. -/
def deduplicate (results : List RevenueData) : List RevenueData :=
  if results.length ≤ 1 then results
  else
    (stableSortDesc (fun r => r.confidence) results).foldl
      (fun unique r => if unique.any (isDuplicateOf r) then unique else unique ++ [r]) []

/-- MRRParser.parse.  `ms` is the per-pattern match list produced by
re.finditer on `text` (cf. ReMatch). -/
def parse (text : String) (ms : List (List ReMatch)) : List RevenueData :=
  let textLower := pyLower text
  let results := collectMatches textLower
    ((EXTRACTORS.zip ms).flatMap (fun em => em.2.map (fun m => (em.1, m))))
  stableSortDesc (fun r => r.confidence) (deduplicate results)

/-- MRRParser.get_best_mrr: prefer the best MRR-typed result, then the best
MONTHLY-typed one, then the overall best. -/
def get_best_mrr (text : String) (ms : List (List ReMatch)) : Option RevenueData :=
  let results := parse text ms
  if results = [] then none
  else
    match results.filter (fun r => r.type = RevenueType.MRR) with
    | r :: _ => some r
    | [] =>
      match results.filter (fun r => r.type = RevenueType.MONTHLY) with
      | r :: _ => some r
      | [] => results.head?

end Mrr

namespace Scoring

/-! IdeaScorer and its data classes from saas_finder/scoring/scorer.py. -/

/-- ReplicabilityLevel enum. -/
inductive ReplicabilityLevel
  | HIGH
  | MEDIUM
  | LOW
  | UNKNOWN
deriving DecidableEq, Repr

/-- ProductComplexity enum. -/
inductive ProductComplexity
  | SINGLE_FEATURE
  | SIMPLE_SAAS
  | COMPLEX_SAAS
  | PLATFORM
  | UNKNOWN
deriving DecidableEq, Repr

/-- TrafficData dataclass; the percent fields are Python floats defaulting
to 0.0 and the visit estimate an optional int. -/
structure TrafficData where
  organic_percent : ℚ := 0
  paid_percent : ℚ := 0
  social_percent : ℚ := 0
  referral_percent : ℚ := 0
  direct_percent : ℚ := 0
  estimated_monthly_visits : Option ℤ := none
  domain_authority : Option ℤ := none
  top_keywords : List String := []
deriving DecidableEq, Repr

/-- TrafficData.has_data: organic, paid or social share positive, or a
visits estimate present.  The referral and direct fields do not occur in
this test. -/
def TrafficData.has_data (t : TrafficData) : Bool :=
  decide (0 < t.organic_percent) || decide (0 < t.paid_percent) ||
    decide (0 < t.social_percent) || t.estimated_monthly_visits.isSome

/-- ScoringResult dataclass.  The human-readable `breakdown` strings (built
with f-string interpolation) carry no scoring information and are omitted
from the model; the per-component functions below return only the integer
part of the source's (score, details) pairs. -/
structure ScoringResult where
  total_score : ℤ
  traction_score : ℤ
  growth_score : ℤ
  traffic_score : ℤ
  simplicity_score : ℤ
deriving DecidableEq, Repr

/-- ScoringResult.grade. -/
def ScoringResult.grade (r : ScoringResult) : String :=
  if 90 ≤ r.total_score then "A+"
  else if 80 ≤ r.total_score then "A"
  else if 70 ≤ r.total_score then "B"
  else if 60 ≤ r.total_score then "C"
  else if 50 ≤ r.total_score then "D"
  else "F"

/-- The SaaSIdea dataclass of scorer.py, restricted to the fields its
scoring methods read (the datetime metadata, the held ScoringResult and the
classification outputs written after scoring are not inputs of any modelled
function). -/
structure SaaSIdea where
  tweet_id : String := ""
  tweet_url : String := ""
  tweet_text : String := ""
  author_username : String := ""
  author_followers : ℤ := 0
  likes : ℤ := 0
  retweets : ℤ := 0
  replies : ℤ := 0
  impressions : ℤ := 0
  reported_mrr : Option ℚ := none
  revenue_confidence : ℚ := 0
  product_name : Option String := none
  product_url : Option String := none
  product_domain : Option String := none
  has_screenshot : Bool := false
  has_stripe_screenshot : Bool := false
  traffic : TrafficData := {}
  complexity : ProductComplexity := ProductComplexity.UNKNOWN
deriving DecidableEq, Repr

/-- SaaSIdea.engagement_rate: total interactions over impressions, guarded
to 0.0 when impressions are zero. -/
def SaaSIdea.engagement_rate (i : SaaSIdea) : ℚ :=
  if i.impressions = 0 then 0
  else ((i.likes + i.retweets + i.replies : ℤ) : ℚ) / (i.impressions : ℚ)

/-- ScoringConfig from saas_finder/config.py with its literal defaults. -/
structure ScoringConfig where
  mrr_high : ℚ := 10000
  mrr_medium : ℚ := 5000
  mrr_low : ℚ := 1000
  engagement_rate_threshold : ℚ := 5/100
  follower_threshold : ℚ := 5000
  organic_traffic_threshold : ℚ := 30/100
deriving DecidableEq, Repr

/-- IdeaScorer._score_traction (integer part).  `idea.reported_mrr or 0`
maps both a missing and a 0.0 revenue to 0. -/
def score_traction (cfg : ScoringConfig) (idea : SaaSIdea) : ℤ :=
  let mrr : ℚ := idea.reported_mrr.getD 0
  let score : ℤ :=
    if cfg.mrr_high ≤ mrr then 30
    else if cfg.mrr_medium ≤ mrr then 20
    else if cfg.mrr_low ≤ mrr then 10
    else 0
  if 9/10 ≤ idea.revenue_confidence then min (score + 2) 30 else score

/-- IdeaScorer._score_growth (integer part): screenshot bonus (payment
dashboard beats generic), engagement-rate bonus, follower bonus, capped at
25. -/
def score_growth (cfg : ScoringConfig) (idea : SaaSIdea) : ℤ :=
  let s1 : ℤ :=
    if idea.has_stripe_screenshot then 12
    else if idea.has_screenshot then 10
    else 0
  let er := idea.engagement_rate
  let s2 : ℤ :=
    if cfg.engagement_rate_threshold < er then 10
    else if cfg.engagement_rate_threshold / 2 < er then 5
    else 0
  let s3 : ℤ :=
    if cfg.follower_threshold ≤ (idea.author_followers : ℚ) then 5
    else if cfg.follower_threshold / 2 ≤ (idea.author_followers : ℚ) then 3
    else 0
  min (s1 + s2 + s3) 25

/-- IdeaScorer._score_traffic (integer part): neutral 10 without traffic
data, otherwise organic bonus plus paid-and-organic diversity bonus, capped
at 25. -/
def score_traffic (cfg : ScoringConfig) (idea : SaaSIdea) : ℤ :=
  if !idea.traffic.has_data then 10
  else
    let t := idea.traffic
    let s1 : ℤ :=
      if cfg.organic_traffic_threshold ≤ t.organic_percent then 15
      else if cfg.organic_traffic_threshold / 2 ≤ t.organic_percent then 8
      else 0
    let s2 : ℤ :=
      if 5/100 < t.paid_percent ∧ 5/100 < t.organic_percent then 10 else 0
    min (s1 + s2) 25

/-- IdeaScorer._score_simplicity (integer part); the unmatched enum member
(ProductComplexity.UNKNOWN) takes the neutral 10 branch. -/
def score_simplicity (idea : SaaSIdea) : ℤ :=
  match idea.complexity with
  | ProductComplexity.SINGLE_FEATURE => 20
  | ProductComplexity.SIMPLE_SAAS => 10
  | ProductComplexity.COMPLEX_SAAS => 5
  | ProductComplexity.PLATFORM => 0
  | ProductComplexity.UNKNOWN => 10

/-- IdeaScorer.score_idea: the four component scores and their sum. -/
def score_idea (cfg : ScoringConfig) (idea : SaaSIdea) : ScoringResult :=
  let traction := score_traction cfg idea
  let growth := score_growth cfg idea
  let traffic := score_traffic cfg idea
  let simplicity := score_simplicity idea
  { total_score := traction + growth + traffic + simplicity
    traction_score := traction
    growth_score := growth
    traffic_score := traffic
    simplicity_score := simplicity }

/-- The truthiness-guarded revenue test of determine_replicability:
Python's `idea.reported_mrr and idea.reported_mrr < 5000`, where both a
missing value and a 0.0 value are falsy. -/
def lowMrrGuard (mrr : Option ℚ) : Bool :=
  match mrr with
  | some v => decide (v ≠ 0) && decide (v < 5000)
  | none => false

/-- IdeaScorer.determine_replicability.  The note strings are the static
part of the source's messages (the f-string interpolated percentages are
elided). -/
def determine_replicability (idea : SaaSIdea) : ReplicabilityLevel × String :=
  let t := idea.traffic
  if 1/2 < t.paid_percent then
    (ReplicabilityLevel.HIGH, "Mostly paid traffic, can launch ads quickly")
  else if 1/5 < t.paid_percent ∧ 1/5 < t.organic_percent then
    (ReplicabilityLevel.MEDIUM, "Mixed traffic sources, requires both SEO and ads strategy")
  else if 3/5 < t.organic_percent then
    (ReplicabilityLevel.LOW, "Mostly organic, SEO advantage hard to replicate")
  else if idea.complexity = ProductComplexity.SINGLE_FEATURE then
    (ReplicabilityLevel.HIGH, "Simple single-feature tool, can build MVP quickly")
  else if lowMrrGuard idea.reported_mrr then
    (ReplicabilityLevel.MEDIUM, "Early stage, market validation still needed")
  else
    (ReplicabilityLevel.UNKNOWN, "Insufficient data for analysis")

end Scoring

namespace Urls

/-! URLExtractor from saas_finder/extractors/urls.py. -/

/-- URLExtractor.EXCLUDED_DOMAINS (exactly the source's set). -/
def EXCLUDED_DOMAINS : List String := [
  "twitter.com", "x.com", "t.co", "pic.twitter.com",
  "facebook.com", "fb.com", "instagram.com", "linkedin.com",
  "tiktok.com", "youtube.com", "youtu.be", "reddit.com",
  "discord.com", "discord.gg", "threads.net",
  "google.com", "goo.gl", "bit.ly", "bitly.com",
  "medium.com", "substack.com", "notion.so", "notion.site",
  "github.com", "gitlab.com", "stackoverflow.com",
  "gmail.com", "outlook.com", "slack.com", "zoom.us",
  "ow.ly", "tinyurl.com", "rebrand.ly", "short.io",
  "is.gd", "v.gd", "cutt.ly", "shorturl.at",
  "wikipedia.org", "amazon.com", "ebay.com"]

/-- URLExtractor.PRODUCT_TLDS. -/
def PRODUCT_TLDS : List String :=
  [".com", ".io", ".co", ".app", ".dev", ".ai", ".so", ".me"]

/-- URLExtractor.PRODUCT_KEYWORDS. -/
def PRODUCT_KEYWORDS : List String :=
  ["app", "dashboard", "pricing", "demo", "beta",
   "saas", "tool", "software", "platform", "service"]

/-- The product-suggestive path list inside _is_likely_product. -/
def PRODUCT_PATHS : List String :=
  ["/pricing", "/demo", "/features", "/about", "/blog"]

/-- The exclusion test of _analyze_url: Python's
`any(excluded in domain for excluded in EXCLUDED_DOMAINS)` (substring
containment, not exact equality). -/
def isExcludedDomain (domain : String) : Bool :=
  EXCLUDED_DOMAINS.any (fun ex => pyIn ex domain)

/-- Split a character list at the first occurrence of `sep`, dropping the
separator; none when `sep` does not occur. -/
def splitOnFirst (sep : List Char) : List Char → Option (List Char × List Char)
  | [] => if sep = [] then some ([], []) else none
  | c :: cs =>
    if sep.isPrefixOf (c :: cs) then some ([], (c :: cs).drop sep.length)
    else
      match splitOnFirst sep cs with
      | some (pre, post) => some (c :: pre, post)
      | none => none

/-- Models `urllib.parse.urlparse(url).netloc` and `.path` for the absolute
scheme://host/path URLs this extractor handles: the netloc is what follows
"://" up to the first slash, query or fragment, and the path runs from that
slash to the query or fragment.  A string without "://" has an empty netloc
and is all path (again up to a query or fragment). -/
def urlparseNetlocPath (url : String) : String × String :=
  match splitOnFirst "://".data url.data with
  | none =>
    ("", String.mk (url.data.takeWhile (fun c => c ≠ '?' ∧ c ≠ '#')))
  | some (_, rest) =>
    let netloc := rest.takeWhile (fun c => c ≠ '/' ∧ c ≠ '?' ∧ c ≠ '#')
    let after := rest.drop netloc.length
    let path := after.takeWhile (fun c => c ≠ '?' ∧ c ≠ '#')
    (String.mk netloc, String.mk path)

/-- The domain normalisation step of _analyze_url: lower-case the netloc
and strip one leading "www.". -/
def domainOf (url : String) : String :=
  let domain := pyLower (urlparseNetlocPath url).1
  if "www.".data.isPrefixOf domain.data then String.mk (domain.data.drop 4) else domain

/-- Python str.title() for ASCII text: the first letter of each run of
letters upper-cased, the rest of the run lower-cased. -/
def pyTitleGo : Bool → List Char → List Char
  | _, [] => []
  | prevAlpha, c :: cs =>
    (if c.isAlpha then (if prevAlpha then c.toLower else c.toUpper) else c) ::
      pyTitleGo c.isAlpha cs

def pyTitle (s : String) : String := String.mk (pyTitleGo false s.data)

/-- URLExtractor._extract_name_from_domain. -/
def extract_name_from_domain (domain : String) : String :=
  let parts := splitOnChar '.' domain.data
  pyTitle (if 2 ≤ parts.length then String.mk (parts.headD domain.data) else domain)

/-- URLExtractor._is_likely_product: the additive score over TLD, keyword,
short-base-domain and path signals, with the extra .ai/.io boost, against
the fixed threshold 2. -/
def is_likely_product (url domain path : String) : Bool :=
  let url_lower := pyLower url
  let has_product_tld := PRODUCT_TLDS.any (fun tld => tld.data.isSuffixOf domain.data)
  let has_product_keyword := PRODUCT_KEYWORDS.any (fun kw => pyIn kw url_lower)
  let base_domain := (splitOnChar '.' domain.data).headD []
  let is_short_domain := base_domain.length ≤ 15
  let has_product_path := PRODUCT_PATHS.any (fun p => pyIn p (pyLower path))
  let score : ℤ :=
    (if has_product_tld then 2 else 0) +
    (if has_product_keyword then 2 else 0) +
    (if is_short_domain then 1 else 0) +
    (if has_product_path then 1 else 0) +
    (if ".ai".data.isSuffixOf domain.data || ".io".data.isSuffixOf domain.data then 1 else 0)
  2 ≤ score

/-- URLExtractor._analyze_url.  The source wraps the body in try/except and
returns None on an exception; no step of the modelled body can fail on the
URL shapes involved, so the result is always `some`. -/
def analyze_url (url : String) : Option Models.ExtractedProduct :=
  let parsed := urlparseNetlocPath url
  let domain := domainOf url
  if isExcludedDomain domain then
    some { url := url, name := none, domain := domain, is_valid_product := false }
  else
    some { url := url, name := some (extract_name_from_domain domain),
           domain := domain,
           is_valid_product := is_likely_product url domain parsed.2 }

/-- Characters that end a URL match of the text scanner (the negated
character class of the source's URL regex): whitespace, angle brackets,
double quote, braces, pipe, backslash, caret, backtick and square
brackets. -/
def urlTerminatorChars : List Char :=
  ['<', '>', Char.ofNat 34, Char.ofNat 123, Char.ofNat 125, '|', '\\', '^',
   Char.ofNat 96, '[', ']']

def urlAllowedChar (c : Char) : Bool :=
  !(c.isWhitespace || c ∈ urlTerminatorChars)

/-- The finditer scan of _extract_urls_from_text's URL regex: at each
position, an http:// or https:// prefix followed by at least one allowed
character starts a match that greedily extends over allowed characters;
scanning resumes after the match.  The fuel argument (the text length) only
drives termination: every step consumes at least one character. -/
def findUrlsGo : ℕ → List Char → List String
  | 0, _ => []
  | _ + 1, [] => []
  | fuel + 1, c :: cs =>
    let l := c :: cs
    if "https://".data.isPrefixOf l then
      let rest := l.drop 8
      let taken := rest.takeWhile urlAllowedChar
      if taken.isEmpty then findUrlsGo fuel cs
      else String.mk ("https://".data ++ taken) :: findUrlsGo fuel (rest.drop taken.length)
    else if "http://".data.isPrefixOf l then
      let rest := l.drop 7
      let taken := rest.takeWhile urlAllowedChar
      if taken.isEmpty then findUrlsGo fuel cs
      else String.mk ("http://".data ++ taken) :: findUrlsGo fuel (rest.drop taken.length)
    else findUrlsGo fuel cs

/-- The trailing-punctuation strip applied to each scanned URL. -/
def STRIP_CHARS : List Char :=
  ['.', ',', ';', ':', '!', '?', ')', Char.ofNat 39, Char.ofNat 34]

def rstripPunct (s : String) : String :=
  String.mk (s.data.reverse.dropWhile (fun c => c ∈ STRIP_CHARS)).reverse

/-- URLExtractor._extract_urls_from_text. -/
def extract_urls_from_text (text : String) : List String :=
  ((findUrlsGo text.data.length text.data).map rstripPunct).filter (fun u => u ≠ "")

/-- First-occurrence deduplication.  The source accumulates candidate URLs
in a Python set, whose iteration order is unspecified; this model keeps
insertion order, and every property proved about the results is
order-independent. -/
def dedupUrlsGo (seen : List String) : List String → List String
  | [] => []
  | u :: us => if u ∈ seen then dedupUrlsGo seen us else u :: dedupUrlsGo (u :: seen) us

/-- The candidate set built by extract / extract_all: the supplied metadata
URLs united with the URLs scanned from the text. -/
def allUrls (text : String) (urls : List String) : List String :=
  dedupUrlsGo [] (urls ++ extract_urls_from_text text)

/-- URLExtractor.extract: analyze every candidate and keep only those whose
`is_valid_product` flag is set (Python's
`if product and product.is_valid_product`). -/
def extract (text : String) (urls : List String) : List Models.ExtractedProduct :=
  (allUrls text urls).filterMap (fun url =>
    match analyze_url url with
    | some product => if product.is_valid_product then some product else none
    | none => none)

/-- URLExtractor.extract_all: analyze every candidate and keep each
analyzable one, the invalid ones included. -/
def extract_all (text : String) (urls : List String) : List Models.ExtractedProduct :=
  (allUrls text urls).filterMap analyze_url

end Urls

namespace Scrapers

/-! ScraperManager from saas_finder/twitter/scrapers/scraper_manager.py.
The manager only reads a tweet's identity; the remaining Tweet metadata
plays no role in its control flow. -/

/-- The slice of the Tweet model the manager logic touches. -/
structure Tweet where
  id : String
  text : String := ""
deriving DecidableEq, Repr

/-- One adapter's behaviour during a single search call: the tweets its
stream yields, in order, and then optionally the exception it raises after
the last yielded tweet (`none` when the stream completes normally).  An
adapter that raises before yielding anything has an empty tweet list. -/
structure ScraperRun where
  tweets : List Tweet
  error : Option String := none
deriving DecidableEq, Repr

/-- The adapter loop of ScraperManager.search.  Each scraper's stream is
iterated inside a try/except whose body contains the yields: the tweets an
adapter produced before failing have already been yielded when the
exception is caught, after which the loop carries the error and moves to
the next scraper.  A scraper whose stream completes ends the call
(`return`); after the loop the last error, if any, is raised. -/
def searchGo : List ScraperRun → Option String → List Tweet × Option String
  | [], lastError => ([], lastError)
  | run :: rest, _lastError =>
    match run.error with
    | none => (run.tweets, none)
    | some e =>
      let tail := searchGo rest (some e)
      (run.tweets ++ tail.1, tail.2)

/-- ScraperManager.search over an initialized scraper list: the stream of
yielded tweets plus the error the whole call raises at its end, if any.
The `scrapers` argument gives each adapter's behaviour for this call, in
priority order. -/
def search (scrapers : List ScraperRun) : List Tweet × Option String :=
  searchGo scrapers none

/-- One query's pass over the dedup filter of search_multiple_queries:
yields the tweets whose id is not in `seen`, returning the updated seen
set. -/
def dedupePass (seen : List String) : List Tweet → List Tweet × List String
  | [] => ([], seen)
  | t :: ts =>
    if t.id ∈ seen then dedupePass seen ts
    else
      let rest := dedupePass (t.id :: seen) ts
      (t :: rest.1, rest.2)

/-- The query loop of ScraperManager.search_multiple_queries.  For each
query the inner search's yielded tweets are processed as they arrive; an
error the inner search raises at its end is caught and the loop continues
with the next query.  With dedup enabled the seen-id set persists across
queries. -/
def searchMultipleGo (dedup : Bool) :
    List String → List (List ScraperRun) → List Tweet
  | _, [] => []
  | seen, q :: qs =>
    let ts := (search q).1
    if dedup then
      let passed := dedupePass seen ts
      passed.1 ++ searchMultipleGo dedup passed.2 qs
    else
      ts ++ searchMultipleGo dedup seen qs

/-- ScraperManager.search_multiple_queries.  `queryRuns` gives, for each
query in order, the per-adapter behaviour of the inner search call;
`dedup` defaults to True as in the source. -/
def search_multiple_queries (queryRuns : List (List ScraperRun))
    (dedup : Bool := true) : List Tweet :=
  searchMultipleGo dedup [] queryRuns

end Scrapers

/-! Helper lemmas about the scorer, shared by the claim theorems below. -/

theorem score_traction_bounds (cfg : Scoring.ScoringConfig) (idea : Scoring.SaaSIdea) :
    0 ≤ Scoring.score_traction cfg idea ∧ Scoring.score_traction cfg idea ≤ 30 := by
  unfold Scoring.score_traction
  dsimp only
  simp only [min_def]
  split_ifs <;> omega

theorem score_growth_bounds (cfg : Scoring.ScoringConfig) (idea : Scoring.SaaSIdea) :
    0 ≤ Scoring.score_growth cfg idea ∧ Scoring.score_growth cfg idea ≤ 25 := by
  unfold Scoring.score_growth
  dsimp only
  simp only [min_def]
  split_ifs <;> omega

theorem score_traffic_bounds (cfg : Scoring.ScoringConfig) (idea : Scoring.SaaSIdea) :
    0 ≤ Scoring.score_traffic cfg idea ∧ Scoring.score_traffic cfg idea ≤ 25 := by
  unfold Scoring.score_traffic
  dsimp only
  simp only [min_def]
  split_ifs <;> omega

theorem score_simplicity_bounds (idea : Scoring.SaaSIdea) :
    0 ≤ Scoring.score_simplicity idea ∧ Scoring.score_simplicity idea ≤ 20 := by
  unfold Scoring.score_simplicity
  split <;> omega

theorem score_idea_fields (cfg : Scoring.ScoringConfig) (idea : Scoring.SaaSIdea) :
    Scoring.score_idea cfg idea =
      { total_score := Scoring.score_traction cfg idea + Scoring.score_growth cfg idea +
          Scoring.score_traffic cfg idea + Scoring.score_simplicity idea
        traction_score := Scoring.score_traction cfg idea
        growth_score := Scoring.score_growth cfg idea
        traffic_score := Scoring.score_traffic cfg idea
        simplicity_score := Scoring.score_simplicity idea } := rfl

/-- C3: for every scoring configuration and every idea, the scorer's total
is exactly the sum of the four component scores, the total lies in [0, 100],
and each component lies within its stated bound (traction in [0,30], growth
in [0,25], traffic in [0,25], simplicity in [0,20]).  The scorer is a total
function of the idea: every branch of every dimension (including the
no-traffic-data and unknown-complexity cases) produces a defined value, so
no input raises. -/
theorem C3_score_idea_total_and_bounds (cfg : Scoring.ScoringConfig)
    (idea : Scoring.SaaSIdea) :
    (Scoring.score_idea cfg idea).total_score =
      (Scoring.score_idea cfg idea).traction_score +
      (Scoring.score_idea cfg idea).growth_score +
      (Scoring.score_idea cfg idea).traffic_score +
      (Scoring.score_idea cfg idea).simplicity_score ∧
    0 ≤ (Scoring.score_idea cfg idea).total_score ∧
    (Scoring.score_idea cfg idea).total_score ≤ 100 ∧
    0 ≤ (Scoring.score_idea cfg idea).traction_score ∧
    (Scoring.score_idea cfg idea).traction_score ≤ 30 ∧
    0 ≤ (Scoring.score_idea cfg idea).growth_score ∧
    (Scoring.score_idea cfg idea).growth_score ≤ 25 ∧
    0 ≤ (Scoring.score_idea cfg idea).traffic_score ∧
    (Scoring.score_idea cfg idea).traffic_score ≤ 25 ∧
    0 ≤ (Scoring.score_idea cfg idea).simplicity_score ∧
    (Scoring.score_idea cfg idea).simplicity_score ≤ 20 := by
  have h1 := score_traction_bounds cfg idea
  have h2 := score_growth_bounds cfg idea
  have h3 := score_traffic_bounds cfg idea
  have h4 := score_simplicity_bounds idea
  rw [score_idea_fields]
  refine ⟨rfl, ?_⟩
  dsimp only
  omega

/-- C9: when organic, paid and social shares are all zero and no visits
estimate is present, `has_data` is false — whatever the referral and direct
shares are — so the traffic component returns the neutral 10.  The referral
and direct fields are simply not part of the has-data test. -/
theorem C9_traffic_neutral_ignores_referral_direct (cfg : Scoring.ScoringConfig)
    (idea : Scoring.SaaSIdea)
    (h1 : idea.traffic.organic_percent = 0)
    (h2 : idea.traffic.paid_percent = 0)
    (h3 : idea.traffic.social_percent = 0)
    (h4 : idea.traffic.estimated_monthly_visits = none) :
    idea.traffic.has_data = false ∧ Scoring.score_traffic cfg idea = 10 := by
  have hd : idea.traffic.has_data = false := by
    simp [Scoring.TrafficData.has_data, h1, h2, h3, h4]
  exact ⟨hd, by simp [Scoring.score_traffic, hd]⟩

/-- Witness for C9 at a concrete idea whose referral share is 1/2 and
direct share 1/4 (both positive) while organic, paid, social and the visit
estimate are absent. -/
theorem C9_witness :
    ({ traffic := { referral_percent := 1/2, direct_percent := 1/4 } } :
      Scoring.SaaSIdea).traffic.has_data = false ∧
    Scoring.score_traffic {}
      { traffic := { referral_percent := 1/2, direct_percent := 1/4 } } = 10 :=
  C9_traffic_neutral_ignores_referral_direct {}
    { traffic := { referral_percent := 1/2, direct_percent := 1/4 } }
    rfl rfl rfl rfl

/-- C10: on an idea with zero impressions the engagement rate is the guarded
0, and scoring the idea still produces a defined, in-range result (the whole
pipeline is total; no division error is possible). -/
theorem C10_zero_impressions_engagement (cfg : Scoring.ScoringConfig)
    (idea : Scoring.SaaSIdea) (h : idea.impressions = 0) :
    idea.engagement_rate = 0 ∧
    0 ≤ (Scoring.score_idea cfg idea).growth_score ∧
    (Scoring.score_idea cfg idea).growth_score ≤ 25 ∧
    0 ≤ (Scoring.score_idea cfg idea).total_score ∧
    (Scoring.score_idea cfg idea).total_score ≤ 100 := by
  have h1 := score_traction_bounds cfg idea
  have h2 := score_growth_bounds cfg idea
  have h3 := score_traffic_bounds cfg idea
  have h4 := score_simplicity_bounds idea
  refine ⟨by simp [Scoring.SaaSIdea.engagement_rate, h], ?_⟩
  rw [score_idea_fields]
  dsimp only
  omega

/-- Witness for C10 at a concrete idea with zero impressions (and nonzero
interaction counts, so the division guard is what makes the rate 0). -/
theorem C10_witness :
    ({ likes := 7, retweets := 3, replies := 2, impressions := 0 } :
      Scoring.SaaSIdea).engagement_rate = 0 ∧
    0 ≤ (Scoring.score_idea {}
      { likes := 7, retweets := 3, replies := 2, impressions := 0 }).growth_score ∧
    (Scoring.score_idea {}
      { likes := 7, retweets := 3, replies := 2, impressions := 0 }).growth_score ≤ 25 ∧
    0 ≤ (Scoring.score_idea {}
      { likes := 7, retweets := 3, replies := 2, impressions := 0 }).total_score ∧
    (Scoring.score_idea {}
      { likes := 7, retweets := 3, replies := 2, impressions := 0 }).total_score ≤ 100 :=
  C10_zero_impressions_engagement {}
    { likes := 7, retweets := 3, replies := 2, impressions := 0 } rfl

/-- First-matching-rule evaluation of an ordered (condition, verdict) list,
falling through to UNKNOWN. -/
def firstMatch : List (Bool × Scoring.ReplicabilityLevel) → Scoring.ReplicabilityLevel
  | [] => Scoring.ReplicabilityLevel.UNKNOWN
  | (c, v) :: rest => if c then v else firstMatch rest

/-- The replicability decision exactly as claim C5 words it (a refinement
spec, written from the claim, to compare with the source's
determine_replicability): paid-share over 50 percent gives HIGH; paid and
organic both over 20 percent give MEDIUM; organic over 60 percent gives
LOW; single-feature complexity gives HIGH; monthly revenue below 5000 gives
MEDIUM; otherwise UNKNOWN — first match wins. -/
def replicabilityClaim (idea : Scoring.SaaSIdea) : Scoring.ReplicabilityLevel :=
  firstMatch [
    (decide (1/2 < idea.traffic.paid_percent), Scoring.ReplicabilityLevel.HIGH),
    (decide (1/5 < idea.traffic.paid_percent ∧
      1/5 < idea.traffic.organic_percent), Scoring.ReplicabilityLevel.MEDIUM),
    (decide (3/5 < idea.traffic.organic_percent), Scoring.ReplicabilityLevel.LOW),
    (decide (idea.complexity = Scoring.ProductComplexity.SINGLE_FEATURE),
      Scoring.ReplicabilityLevel.HIGH),
    ((match idea.reported_mrr with
      | some v => decide (v < 5000)
      | none => false), Scoring.ReplicabilityLevel.MEDIUM)]

/-- The same rule list with the one change the code forces: the revenue
rule fires only when a revenue value is present and nonzero (Python
truthiness) besides being below 5000. -/
def replicabilityAmended (idea : Scoring.SaaSIdea) : Scoring.ReplicabilityLevel :=
  firstMatch [
    (decide (1/2 < idea.traffic.paid_percent), Scoring.ReplicabilityLevel.HIGH),
    (decide (1/5 < idea.traffic.paid_percent ∧
      1/5 < idea.traffic.organic_percent), Scoring.ReplicabilityLevel.MEDIUM),
    (decide (3/5 < idea.traffic.organic_percent), Scoring.ReplicabilityLevel.LOW),
    (decide (idea.complexity = Scoring.ProductComplexity.SINGLE_FEATURE),
      Scoring.ReplicabilityLevel.HIGH),
    ((match idea.reported_mrr with
      | some v => decide (v ≠ 0 ∧ v < 5000)
      | none => false), Scoring.ReplicabilityLevel.MEDIUM)]

/-- C5 counterexample: an idea with a reported monthly revenue of 0 (below
5000) and no other signals.  The claim's rule list yields MEDIUM, but the
code returns UNKNOWN, because its revenue test is Python-truthy and 0.0 is
falsy. -/
theorem C5_counterexample :
    (Scoring.determine_replicability { reported_mrr := some 0 }).1 =
      Scoring.ReplicabilityLevel.UNKNOWN ∧
    replicabilityClaim { reported_mrr := some 0 } =
      Scoring.ReplicabilityLevel.MEDIUM ∧
    Scoring.ReplicabilityLevel.UNKNOWN ≠ Scoring.ReplicabilityLevel.MEDIUM := by
  refine ⟨?_, ?_, by decide⟩
  · norm_num [Scoring.determine_replicability, Scoring.lowMrrGuard]
    decide
  · norm_num [replicabilityClaim, firstMatch]
    decide

/-- C5 as amended: for every idea, determine_replicability returns exactly
the verdict of the claim's ordered rule list, with the revenue rule
restricted to a present, nonzero revenue below 5000 (first matching rule
wins, in the stated order). -/
theorem C5_amended_decision_list (idea : Scoring.SaaSIdea) :
    (Scoring.determine_replicability idea).1 = replicabilityAmended idea := by
  have h5 : (match idea.reported_mrr with
      | some v => decide (v ≠ 0 ∧ v < 5000)
      | none => false) = Scoring.lowMrrGuard idea.reported_mrr := by
    cases idea.reported_mrr with
    | none => rfl
    | some v =>
      by_cases h0 : v = 0 <;> by_cases h1 : v < 5000 <;>
        simp [Scoring.lowMrrGuard, h0, h1]
  unfold Scoring.determine_replicability replicabilityAmended
  rw [h5]
  dsimp only
  simp only [firstMatch, decide_eq_true_eq]
  split_ifs <;> rfl

/-! Helper lemmas about the scraper manager. -/

theorem searchGo_append_success (runs : List Scrapers.ScraperRun)
    (s : Scrapers.ScraperRun) (rest : List Scrapers.ScraperRun) (le : Option String)
    (h : ∀ r ∈ runs, r.error.isSome) (hs : s.error = none) :
    Scrapers.searchGo (runs ++ s :: rest) le =
      ((runs.map Scrapers.ScraperRun.tweets).flatten ++ s.tweets, none) := by
  induction runs generalizing le with
  | nil => simp [Scrapers.searchGo, hs]
  | cons r rs ih =>
    obtain ⟨e, he⟩ := Option.isSome_iff_exists.mp (h r (List.mem_cons_self r rs))
    have ih' := ih (some e) (fun x hx => h x (List.mem_cons_of_mem r hx))
    simp [Scrapers.searchGo, he, ih']

theorem searchGo_all_fail (runs : List Scrapers.ScraperRun) (le : Option String)
    (h : ∀ r ∈ runs, r.error.isSome) :
    (Scrapers.searchGo runs le).1 = (runs.map Scrapers.ScraperRun.tweets).flatten ∧
    (runs ≠ [] → (Scrapers.searchGo runs le).2.isSome) := by
  induction runs generalizing le with
  | nil => simp [Scrapers.searchGo]
  | cons r rs ih =>
    obtain ⟨e, he⟩ := Option.isSome_iff_exists.mp (h r (List.mem_cons_self r rs))
    have ih' := ih (some e) (fun x hx => h x (List.mem_cons_of_mem r hx))
    refine ⟨by simp [Scrapers.searchGo, he, ih'.1], fun _ => ?_⟩
    rcases eq_or_ne rs [] with hrs | hrs
    · subst hrs
      simp [Scrapers.searchGo, he]
    · simpa [Scrapers.searchGo, he] using ih'.2 hrs

/-- C1 counterexample: the first (highest-priority) adapter yields one post
and then raises, and a second adapter is available.  The claim predicts the
call aborts with the error and never uses the second adapter; the code
instead completes without error, and the stream contains the first
adapter's post followed by the second adapter's post. -/
theorem C1_counterexample :
    (Scrapers.search [⟨[⟨"t1", ""⟩], some "boom"⟩, ⟨[⟨"t2", ""⟩], none⟩]).2 = none ∧
    (⟨"t1", ""⟩ : Scrapers.Tweet) ∈
      (Scrapers.search [⟨[⟨"t1", ""⟩], some "boom"⟩, ⟨[⟨"t2", ""⟩], none⟩]).1 ∧
    (⟨"t2", ""⟩ : Scrapers.Tweet) ∈
      (Scrapers.search [⟨[⟨"t1", ""⟩], some "boom"⟩, ⟨[⟨"t2", ""⟩], none⟩]).1 := by
  decide

/-- C1 as amended: an exception raised in an adapter's stream — also after
it has yielded posts — does not abort the search call.  The manager keeps
the already-yielded posts, proceeds to the next adapter in priority order,
and succeeds from the first adapter whose stream completes; the error
surfaces only when every adapter's stream raises, in which case the call
still first yields every post the failing adapters produced. -/
theorem C1_amended_midstream_fallback :
    (∀ (runs : List Scrapers.ScraperRun) (s : Scrapers.ScraperRun)
      (rest : List Scrapers.ScraperRun),
      (∀ r ∈ runs, r.error.isSome) → s.error = none →
      Scrapers.search (runs ++ s :: rest) =
        ((runs.map Scrapers.ScraperRun.tweets).flatten ++ s.tweets, none)) ∧
    (∀ runs : List Scrapers.ScraperRun, runs ≠ [] → (∀ r ∈ runs, r.error.isSome) →
      (Scrapers.search runs).1 = (runs.map Scrapers.ScraperRun.tweets).flatten ∧
      (Scrapers.search runs).2.isSome) :=
  ⟨fun runs s rest h hs => searchGo_append_success runs s rest none h hs,
   fun runs hne h =>
    ⟨(searchGo_all_fail runs none h).1, (searchGo_all_fail runs none h).2 hne⟩⟩

/-- Witness for C1 as amended: one failing adapter that yields a post, then
a succeeding adapter; and separately a run where both adapters fail. -/
theorem C1_amended_witness :
    Scrapers.search ([⟨[⟨"a", ""⟩], some "x"⟩] ++ ⟨[⟨"b", ""⟩], none⟩ :: []) =
      ((([⟨[⟨"a", ""⟩], some "x"⟩] :
          List Scrapers.ScraperRun).map Scrapers.ScraperRun.tweets).flatten ++
        [⟨"b", ""⟩], none) ∧
    (Scrapers.search [⟨[⟨"c", ""⟩], some "y"⟩]).1 =
      (([⟨[⟨"c", ""⟩], some "y"⟩] :
        List Scrapers.ScraperRun).map Scrapers.ScraperRun.tweets).flatten ∧
    (Scrapers.search [⟨[⟨"c", ""⟩], some "y"⟩]).2.isSome :=
  ⟨C1_amended_midstream_fallback.1 [⟨[⟨"a", ""⟩], some "x"⟩] ⟨[⟨"b", ""⟩], none⟩ []
      (by decide) rfl,
   C1_amended_midstream_fallback.2 [⟨[⟨"c", ""⟩], some "y"⟩] (by decide) (by decide)⟩

theorem dedupePass_spec (ts : List Scrapers.Tweet) : ∀ seen : List String,
    ((Scrapers.dedupePass seen ts).1.map Scrapers.Tweet.id).Nodup ∧
    (∀ y ∈ (Scrapers.dedupePass seen ts).1, y.id ∉ seen) ∧
    (∀ a ∈ seen, a ∈ (Scrapers.dedupePass seen ts).2) ∧
    (∀ y ∈ (Scrapers.dedupePass seen ts).1, y.id ∈ (Scrapers.dedupePass seen ts).2) := by
  induction ts with
  | nil => simp [Scrapers.dedupePass]
  | cons t ts ih =>
    intro seen
    by_cases h : t.id ∈ seen
    · simpa [Scrapers.dedupePass, h] using ih seen
    · have iht := ih (t.id :: seen)
      refine ⟨?_, ?_, ?_, ?_⟩
      · simp only [Scrapers.dedupePass, h, if_false, List.map_cons, List.nodup_cons]
        refine ⟨fun hmem => ?_, iht.1⟩
        obtain ⟨y, hy, hid⟩ := List.mem_map.mp hmem
        exact iht.2.1 y hy (hid ▸ List.mem_cons_self t.id seen)
      · intro y hy
        simp only [Scrapers.dedupePass, h, if_false, List.mem_cons] at hy
        rcases hy with rfl | hy
        · exact h
        · exact fun hc => iht.2.1 y hy (List.mem_cons_of_mem _ hc)
      · intro a ha
        simp only [Scrapers.dedupePass, h, if_false]
        exact iht.2.2.1 a (List.mem_cons_of_mem _ ha)
      · intro y hy
        simp only [Scrapers.dedupePass, h, if_false, List.mem_cons] at hy ⊢
        rcases hy with rfl | hy
        · exact iht.2.2.1 y.id (List.mem_cons_self y.id seen)
        · exact iht.2.2.2 y hy

theorem searchMultipleGo_spec (qs : List (List Scrapers.ScraperRun)) :
    ∀ seen : List String,
    ((Scrapers.searchMultipleGo true seen qs).map Scrapers.Tweet.id).Nodup ∧
    (∀ y ∈ Scrapers.searchMultipleGo true seen qs, y.id ∉ seen) := by
  induction qs with
  | nil => simp [Scrapers.searchMultipleGo]
  | cons q qs ih =>
    intro seen
    have hp := dedupePass_spec (Scrapers.search q).1 seen
    have ihq := ih (Scrapers.dedupePass seen (Scrapers.search q).1).2
    constructor
    · simp only [Scrapers.searchMultipleGo, if_true, List.map_append]
      rw [List.nodup_append]
      refine ⟨hp.1, ihq.1, ?_⟩
      intro a ha hb
      obtain ⟨y1, hy1, hid1⟩ := List.mem_map.mp ha
      obtain ⟨y2, hy2, hid2⟩ := List.mem_map.mp hb
      exact ihq.2 y2 hy2 (hid2 ▸ hid1 ▸ hp.2.2.2 y1 hy1)
    · intro y hy
      simp only [Scrapers.searchMultipleGo, if_true, List.mem_append] at hy
      rcases hy with hy | hy
      · exact hp.2.1 y hy
      · exact fun hc => ihq.2 y hy (hp.2.2.1 y.id hc)

/-- C4: multi-query search with deduplication enabled (the default) never
yields two tweets with the same identifier over the whole run, whatever the
queries' adapter behaviours are: an identifier yielded under an earlier
query is suppressed when a later query returns it again. -/
theorem C4_search_multiple_queries_nodup
    (queryRuns : List (List Scrapers.ScraperRun)) :
    ((Scrapers.search_multiple_queries queryRuns true).map Scrapers.Tweet.id).Nodup :=
  (searchMultipleGo_spec queryRuns []).1

/-! Helper lemmas about the revenue extractor and the MRR parser. -/

theorem FIGURE_ESTIMATES_le (s : String) :
    Revenue.FIGURE_ESTIMATES s ≤ 100000000 := by
  unfold Revenue.FIGURE_ESTIMATES
  split_ifs <;> norm_num

theorem pyTrunc_le {q : ℚ} (h0 : 0 ≤ q) (h : q ≤ 100000000) :
    pyTrunc q ≤ 100000000 := by
  unfold pyTrunc
  rw [if_pos h0]
  have := Int.floor_le_floor h
  simpa using this

theorem parse_match_amount_le {m : ReMatch} {c : ℚ} {a : ℤ} {c' : ℚ}
    (h : Revenue.parse_match m c = some (a, c')) : a ≤ 100000000 := by
  unfold Revenue.parse_match at h
  split_ifs at h with hfig
  · simp only [Option.some.injEq, Prod.mk.injEq] at h
    exact h.1 ▸ FIGURE_ESTIMATES_le m.g1
  · cases hf : pyFloat (stripCommas m.g1) with
    | none => rw [hf] at h; exact absurd h (by simp)
    | some amount0 =>
      rw [hf] at h
      dsimp only at h
      split_ifs at h with h1 h2
      simp only [Option.some.injEq, Prod.mk.injEq] at h
      rw [← h.1]
      exact pyTrunc_le (le_of_not_le (by simpa using h1)) (le_of_not_lt h2)

theorem extractGo_amount_bounds (hs : Bool)
    (l : List ((Models.RevenueType × ℚ) × ReMatch)) :
    ∀ best : Option Models.ExtractedRevenue × ℚ,
    (∀ r, best.1 = some r → 0 < r.amount ∧ r.amount ≤ 100000000) →
    ∀ r, (Revenue.extractGo hs l best).1 = some r →
      0 < r.amount ∧ r.amount ≤ 100000000 := by
  induction l with
  | nil => intro best hb r h; exact hb r h
  | cons pm rest ih =>
    intro best hb r h
    obtain ⟨pt, m⟩ := pm
    rw [Revenue.extractGo] at h
    cases hpm : Revenue.parse_match m pt.2 with
    | none =>
      rw [hpm] at h
      exact ih best hb r h
    | some ac =>
      obtain ⟨a, c0⟩ := ac
      simp only [hpm] at h
      by_cases ha : a ≤ 0
      · rw [if_pos ha] at h
        exact ih best hb r h
      · rw [if_neg ha] at h
        by_cases hc : best.2 < (if hs = true then min (c0 + 1/10) 1 else c0)
        · rw [if_pos hc] at h
          refine ih _ ?_ r h
          intro r' hr'
          simp only [Option.some.injEq] at hr'
          rw [← hr']
          exact ⟨lt_of_not_le ha, parse_match_amount_le hpm⟩
        · rw [if_neg hc] at h
          exact ih best hb r h

theorem extractAllGo_amount_bounds (hs : Bool)
    (l : List ((Models.RevenueType × ℚ) × ReMatch)) :
    ∀ (seen : List ℤ) (r : Models.ExtractedRevenue),
    r ∈ Revenue.extractAllGo hs seen l → 0 < r.amount ∧ r.amount ≤ 100000000 := by
  induction l with
  | nil => intro seen r h; simp [Revenue.extractAllGo] at h
  | cons pm rest ih =>
    intro seen r h
    obtain ⟨pt, m⟩ := pm
    rw [Revenue.extractAllGo] at h
    cases hpm : Revenue.parse_match m pt.2 with
    | none =>
      rw [hpm] at h
      exact ih seen r h
    | some ac =>
      obtain ⟨a, c0⟩ := ac
      simp only [hpm] at h
      by_cases ha : a ≤ 0
      · rw [if_pos ha] at h
        exact ih seen r h
      · rw [if_neg ha] at h
        by_cases hseen : a ∈ seen
        · rw [if_pos hseen] at h
          exact ih seen r h
        · rw [if_neg hseen] at h
          rcases List.mem_cons.mp h with rfl | h
          · exact ⟨lt_of_not_le ha, parse_match_amount_le hpm⟩
          · exact ih _ r h

theorem mkCandidate_some_shape {tl : String} {m : ReMatch}
    {ext : ReMatch → Option (ℚ × Mrr.RevenueType × ℚ)} {r : Mrr.RevenueData}
    (h : Mrr.mkCandidate tl m ext = some r) :
    ∃ a t c, ext m = some (a, t, c) ∧ ¬(a < 100) ∧
      r = ⟨a, (Mrr.reclassify tl t c).1, m.g0, min (Mrr.reclassify tl t c).2 1⟩ := by
  unfold Mrr.mkCandidate at h
  cases he : ext m with
  | none => rw [he] at h; exact absurd h (by simp)
  | some atc =>
    obtain ⟨a, t, c⟩ := atc
    rw [he] at h
    dsimp only at h
    split_ifs at h with h100
    simp only [Option.some.injEq] at h
    exact ⟨a, t, c, rfl, h100, h.symm⟩

theorem collectMatches_mem {tl : String}
    {l : List ((ReMatch → Option (ℚ × Mrr.RevenueType × ℚ)) × ReMatch)}
    {r : Mrr.RevenueData} (h : r ∈ Mrr.collectMatches tl l) :
    ∃ em ∈ l, Mrr.mkCandidate tl em.2 em.1 = some r := by
  induction l with
  | nil => simp [Mrr.collectMatches] at h
  | cons em rest ih =>
    obtain ⟨ext, m⟩ := em
    rw [Mrr.collectMatches] at h
    cases hmk : Mrr.mkCandidate tl m ext with
    | none =>
      rw [hmk] at h
      obtain ⟨em', hem', h'⟩ := ih h
      exact ⟨em', List.mem_cons_of_mem _ hem', h'⟩
    | some r' =>
      rw [hmk] at h
      rcases List.mem_cons.mp h with rfl | h
      · exact ⟨(ext, m), List.mem_cons_self _ _, hmk⟩
      · obtain ⟨em', hem', h'⟩ := ih h
        exact ⟨em', List.mem_cons_of_mem _ hem', h'⟩

theorem mem_dedupFold (l : List Mrr.RevenueData) :
    ∀ (acc : List Mrr.RevenueData) (x : Mrr.RevenueData),
    x ∈ l.foldl (fun unique r =>
      if unique.any (Mrr.isDuplicateOf r) then unique else unique ++ [r]) acc →
    x ∈ acc ∨ x ∈ l := by
  induction l with
  | nil => intro acc x h; exact Or.inl h
  | cons r rest ih =>
    intro acc x h
    rw [List.foldl_cons] at h
    rcases ih _ x h with h' | h'
    · by_cases hc : acc.any (Mrr.isDuplicateOf r)
      · rw [if_pos hc] at h'
        exact Or.inl h'
      · rw [if_neg hc] at h'
        rcases List.mem_append.mp h' with h'' | h''
        · exact Or.inl h''
        · simp only [List.mem_singleton] at h''
          exact Or.inr (h'' ▸ List.mem_cons_self r rest)
    · exact Or.inr (List.mem_cons_of_mem _ h')

theorem deduplicate_subset {l : List Mrr.RevenueData} {r : Mrr.RevenueData}
    (h : r ∈ Mrr.deduplicate l) : r ∈ l := by
  unfold Mrr.deduplicate at h
  split_ifs at h with hlen
  · exact h
  · rcases mem_dedupFold _ [] r h with h' | h'
    · simp at h'
    · exact (mem_stableSortDesc _ l r).mp h'

theorem parse_mem {text : String} {ms : List (List ReMatch)} {r : Mrr.RevenueData}
    (h : r ∈ Mrr.parse text ms) :
    ∃ em ∈ (Mrr.EXTRACTORS.zip ms).flatMap (fun em => em.2.map (fun m => (em.1, m))),
      Mrr.mkCandidate (pyLower text) em.2 em.1 = some r := by
  unfold Mrr.parse at h
  exact collectMatches_mem (deduplicate_subset ((mem_stableSortDesc _ _ r).mp h))

theorem parse_amount_ge {text : String} {ms : List (List ReMatch)}
    {r : Mrr.RevenueData} (h : r ∈ Mrr.parse text ms) : 100 ≤ r.amount := by
  obtain ⟨em, _, hmk⟩ := parse_mem h
  obtain ⟨a, t, c, _, h100, hr⟩ := mkCandidate_some_shape hmk
  rw [hr]
  exact le_of_not_lt h100

theorem parse_confidence_le {text : String} {ms : List (List ReMatch)}
    {r : Mrr.RevenueData} (h : r ∈ Mrr.parse text ms) : r.confidence ≤ 1 := by
  obtain ⟨em, _, hmk⟩ := parse_mem h
  obtain ⟨a, t, c, _, _, hr⟩ := mkCandidate_some_shape hmk
  rw [hr]
  exact min_le_right _ _

/-- C2 as amended: every candidate the revenue extractor returns — the best
match of extract and every element of extract_all — has an amount in
(0, 100000000]; the below-100 floor, however, lives in MRRParser.parse
(each of its results has amount at least 100) and is not applied by the
revenue extractor, which can return amounts below 100. -/
theorem C2_amended_amount_bounds :
    (∀ (text : String) (ms : List (List ReMatch)) (r : Models.ExtractedRevenue),
      Revenue.extract text ms = some r → 0 < r.amount ∧ r.amount ≤ 100000000) ∧
    (∀ (text : String) (ms : List (List ReMatch)) (r : Models.ExtractedRevenue),
      r ∈ Revenue.extract_all text ms → 0 < r.amount ∧ r.amount ≤ 100000000) ∧
    (∀ (text : String) (ms : List (List ReMatch)) (r : Mrr.RevenueData),
      r ∈ Mrr.parse text ms → 100 ≤ r.amount) := by
  refine ⟨?_, ?_, fun text ms r h => parse_amount_ge h⟩
  · intro text ms r h
    unfold Revenue.extract at h
    split_ifs at h
    exact extractGo_amount_bounds _ _ (none, 0) (by simp) r h
  · intro text ms r h
    unfold Revenue.extract_all at h
    split_ifs at h
    · simp at h
    · exact extractAllGo_amount_bounds _ _ [] r
        ((mem_stableSortDesc _ _ r).mp h)

/-- Witness for C2 as amended, at the text "$10K MRR": the first pattern
(dollar amount, optional k, MRR) matches the whole text with amount capture
"10" and k-group "K", the fifth (bare amount with k before MRR) matches
"10K MRR"; the extractor returns the 10000 candidate, whose amount the
theorem bounds. -/
theorem C2_amended_witness :
    0 < (⟨"$10K MRR", 10000, Models.RevenueType.MRR, 19/20, false⟩ :
      Models.ExtractedRevenue).amount ∧
    (⟨"$10K MRR", 10000, Models.RevenueType.MRR, 19/20, false⟩ :
      Models.ExtractedRevenue).amount ≤ 100000000 :=
  C2_amended_amount_bounds.1 "$10K MRR"
    [[⟨"$10K MRR", "10", some "K"⟩], [], [], [], [⟨"10K MRR", "10", some "K"⟩],
     [], [], [], [], [], [], []]
    ⟨"$10K MRR", 10000, Models.RevenueType.MRR, 19/20, false⟩
    (by
      have h1 : Revenue.check_screenshot_indicators "$10K MRR" = false := by decide
      have h2 : Revenue.parse_match ⟨"$10K MRR", "10", some "K"⟩ (95/100) =
          some (10000, 95/100) := by
        simp [Revenue.parse_match,
          show pyIn "figure" (pyLower "$10K MRR") = false from by decide,
          show pyFloat (stripCommas "10") = some 10 from by decide,
          show pyLower "K" = "k" from by decide, pyTrunc]
        norm_num
      have h3 : Revenue.parse_match ⟨"10K MRR", "10", some "K"⟩ (80/100) =
          some (10000, 80/100) := by
        simp [Revenue.parse_match,
          show pyIn "figure" (pyLower "10K MRR") = false from by decide,
          show pyFloat (stripCommas "10") = some 10 from by decide,
          show pyLower "K" = "k" from by decide, pyTrunc]
        norm_num
      simp [Revenue.extract, Revenue.extractGo, Revenue.patternMatches,
        Revenue.PATTERNS, h1, h2, h3]
      norm_num)

/-- C2 counterexample: the text "$50 MRR" is matched by the first pattern
(no other pattern matches it), parses to amount 50, and the revenue
extractor returns it: an amount below 100 is returned even though a pattern
matched it, contradicting the claimed universal below-100 rejection. -/
theorem C2_counterexample :
    (Revenue.extract "$50 MRR"
      [[⟨"$50 MRR", "50", none⟩], [], [], [], [], [], [], [], [], [], [], []]).map
      Models.ExtractedRevenue.amount = some 50 ∧ (50 : ℤ) < 100 := by
  refine ⟨?_, by norm_num⟩
  have h1 : Revenue.check_screenshot_indicators "$50 MRR" = false := by decide
  have h2 : Revenue.parse_match ⟨"$50 MRR", "50", none⟩ (95/100) =
      some (50, 95/100) := by
    simp [Revenue.parse_match,
      show pyIn "figure" (pyLower "$50 MRR") = false from by decide,
      show pyFloat (stripCommas "50") = some 50 from by decide, pyTrunc]
    norm_num
  simp [Revenue.extract, Revenue.extractGo, Revenue.patternMatches,
    Revenue.PATTERNS, h1, h2]

/-- C7: when a pattern's extractor yields a match of UNKNOWN revenue kind
whose amount passes the floor, MRRParser.parse's per-match step reclassifies
the kind from keywords found anywhere in the lower-cased text — "mrr" gives
the recurring-monthly kind with a 0.1 confidence bonus; otherwise "arr"
gives the annualized kind with a 0.1 bonus; otherwise a month word gives
the generic-monthly kind with a 0.05 bonus — and the candidate's confidence
is capped at 1.0 (indeed every candidate parse returns has confidence at
most 1). -/
theorem C7_unknown_kind_reclassified :
    (∀ (text : String) (m : ReMatch)
      (ext : ReMatch → Option (ℚ × Mrr.RevenueType × ℚ)) (a conf : ℚ),
      ext m = some (a, Mrr.RevenueType.UNKNOWN, conf) → ¬(a < 100) →
      (pyIn "mrr" (pyLower text) = true →
        Mrr.mkCandidate (pyLower text) m ext =
          some ⟨a, Mrr.RevenueType.MRR, m.g0, min (conf + 1/10) 1⟩) ∧
      (pyIn "mrr" (pyLower text) = false → pyIn "arr" (pyLower text) = true →
        Mrr.mkCandidate (pyLower text) m ext =
          some ⟨a, Mrr.RevenueType.ARR, m.g0, min (conf + 1/10) 1⟩) ∧
      (pyIn "mrr" (pyLower text) = false → pyIn "arr" (pyLower text) = false →
        (["month", "monthly", "/mo"].any fun kw => pyIn kw (pyLower text)) = true →
        Mrr.mkCandidate (pyLower text) m ext =
          some ⟨a, Mrr.RevenueType.MONTHLY, m.g0, min (conf + 1/20) 1⟩)) ∧
    (∀ (text : String) (ms : List (List ReMatch)) (r : Mrr.RevenueData),
      r ∈ Mrr.parse text ms → r.confidence ≤ 1) := by
  refine ⟨?_, fun text ms r h => parse_confidence_le h⟩
  intro text m ext a conf hext h100
  refine ⟨fun hmrr => ?_, fun hmrr harr => ?_, fun hmrr harr hmo => ?_⟩
  · simp [Mrr.mkCandidate, hext, h100, Mrr.reclassify, hmrr]
  · simp [Mrr.mkCandidate, hext, h100, Mrr.reclassify, hmrr, harr]
  · simp [Mrr.mkCandidate, hext, h100, Mrr.reclassify, hmrr, harr, hmo]

/-- Witness for C7 on the text "just hit $500 and mrr is growing": the
hit/reached/crossed/passed pattern (row 6) matches "hit $500" with UNKNOWN
kind and base confidence 0.70; "mrr" occurs elsewhere in the text, so the
candidate is reclassified to MRR with confidence 0.70 + 0.10. -/
theorem C7_witness :
    Mrr.mkCandidate (pyLower "just hit $500 and mrr is growing")
      ⟨"hit $500", "500", none⟩ Mrr.extractor6 =
      some ⟨500, Mrr.RevenueType.MRR, "hit $500", min (70/100 + 1/10) 1⟩ :=
  ((C7_unknown_kind_reclassified.1 "just hit $500 and mrr is growing"
      ⟨"hit $500", "500", none⟩ Mrr.extractor6 500 (70/100)
      (by
        simp [Mrr.extractor6, Mrr.parse_amount,
          show Mrr.kFlag ⟨"hit $500", "500", none⟩ = false from by decide,
          show pyFloat (stripCommas "500") = some 500 from by decide])
      (by norm_num)).1
    (by decide))

/-- C8: on the text "$120K ARR", the MRR parser's best result has amount
120000 and the annualized (ARR) kind, and its monthly equivalent is 10000;
the monthly equivalent of any result is its amount divided by 12 exactly
for the ARR kind and the amount unchanged otherwise.  The revenue
extractor, whose second pattern (dollar amount, optional k, ARR) matches
the same text, extracts the same 120000 ARR figure.  (Rows one and two of
the MRR parser's pattern table both match this text, with amount capture
"120"; no other row matches.) -/
theorem C8_arr_monthly_equivalent :
    Mrr.get_best_mrr "$120K ARR"
      [[⟨"$120K ARR", "120", some "ARR"⟩], [⟨"$120K ARR", "120", some "ARR"⟩],
       [], [], [], [], [], []] =
      some ⟨120000, Mrr.RevenueType.ARR, "$120K ARR", 19/20⟩ ∧
    (Mrr.get_best_mrr "$120K ARR"
      [[⟨"$120K ARR", "120", some "ARR"⟩], [⟨"$120K ARR", "120", some "ARR"⟩],
       [], [], [], [], [], []]).map Mrr.monthly_equivalent = some 10000 ∧
    (∀ r : Mrr.RevenueData, Mrr.monthly_equivalent r =
      if r.type = Mrr.RevenueType.ARR then r.amount / 12 else r.amount) ∧
    Revenue.extract "$120K ARR"
      [[], [⟨"$120K ARR", "120", some "K"⟩], [], [], [], [], [], [], [], [], [], []] =
      some ⟨"$120K ARR", 120000, Models.RevenueType.ARR, 19/20, false⟩ := by
  have hbest : Mrr.get_best_mrr "$120K ARR"
      [[⟨"$120K ARR", "120", some "ARR"⟩], [⟨"$120K ARR", "120", some "ARR"⟩],
       [], [], [], [], [], []] =
      some ⟨120000, Mrr.RevenueType.ARR, "$120K ARR", 19/20⟩ := by
    have hparse : Mrr.parse "$120K ARR"
        [[⟨"$120K ARR", "120", some "ARR"⟩], [⟨"$120K ARR", "120", some "ARR"⟩],
         [], [], [], [], [], []] =
        [⟨120000, Mrr.RevenueType.ARR, "$120K ARR", 19/20⟩] := by
      norm_num [Mrr.parse, Mrr.collectMatches, Mrr.EXTRACTORS, Mrr.mkCandidate,
        Mrr.reclassify, Mrr.extractor1, Mrr.extractor2, Mrr.parse_amount,
        Mrr.deduplicate, Mrr.isDuplicateOf, stableSortDesc, insertByDesc, min_def,
        show Mrr.kFlag ⟨"$120K ARR", "120", some "ARR"⟩ = true from by decide,
        show pyFloat (stripCommas "120") = some 120 from by decide,
        show pyUpper "ARR" = "ARR" from by decide,
        show ("ARR" : String) ≠ "MRR" from by decide]
    simp [Mrr.get_best_mrr, hparse]
  refine ⟨hbest, ?_, fun r => rfl, ?_⟩
  · rw [hbest]
    simp [Mrr.monthly_equivalent]
    norm_num
  · have h1 : Revenue.check_screenshot_indicators "$120K ARR" = false := by decide
    have h2 : Revenue.parse_match ⟨"$120K ARR", "120", some "K"⟩ (95/100) =
        some (120000, 95/100) := by
      simp [Revenue.parse_match,
        show pyIn "figure" (pyLower "$120K ARR") = false from by decide,
        show pyFloat (stripCommas "120") = some 120 from by decide,
        show pyLower "K" = "k" from by decide, pyTrunc]
      norm_num
    simp [Revenue.extract, Revenue.extractGo, Revenue.patternMatches,
      Revenue.PATTERNS, h1, h2]
    norm_num

/-! Helper lemmas about the URL extractor. -/

theorem analyze_url_shape (url : String) :
    ∃ p, Urls.analyze_url url = some p ∧ p.url = url ∧
      (Urls.isExcludedDomain (Urls.domainOf url) = true →
        p.is_valid_product = false) := by
  by_cases h : Urls.isExcludedDomain (Urls.domainOf url) = true
  · refine ⟨{ url := url, name := none, domain := Urls.domainOf url,
              is_valid_product := false }, ?_, rfl, fun _ => rfl⟩
    simp [Urls.analyze_url, h]
  · refine ⟨{ url := url,
              name := some (Urls.extract_name_from_domain (Urls.domainOf url)),
              domain := Urls.domainOf url,
              is_valid_product :=
                Urls.is_likely_product url (Urls.domainOf url)
                  (Urls.urlparseNetlocPath url).2 },
      ?_, rfl, fun hc => absurd hc h⟩
    simp [Urls.analyze_url, h]

/-- C6 as amended: a candidate URL whose normalized (lower-cased,
www-stripped) domain falls in the exclusion set is classified by
_analyze_url as a product whose validity flag is false; extract, however,
returns only candidates whose flag is true — the excluded candidate is
omitted from extract's result — while extract_all returns every candidate,
the excluded ones flagged invalid. -/
theorem C6_amended_excluded_flagged :
    (∀ url : String, Urls.isExcludedDomain (Urls.domainOf url) = true →
      Urls.analyze_url url =
        some { url := url, name := none, domain := Urls.domainOf url,
               is_valid_product := false }) ∧
    (∀ (text : String) (urls : List String) (p : Models.ExtractedProduct),
      p ∈ Urls.extract text urls → p.is_valid_product = true) ∧
    (∀ (text : String) (urls : List String) (url : String),
      url ∈ Urls.allUrls text urls →
      ∃ p ∈ Urls.extract_all text urls, p.url = url ∧
        (Urls.isExcludedDomain (Urls.domainOf url) = true →
          p.is_valid_product = false)) := by
  refine ⟨?_, ?_, ?_⟩
  · intro url h
    simp [Urls.analyze_url, h]
  · intro text urls p h
    unfold Urls.extract at h
    obtain ⟨u, hu, hfu⟩ := List.mem_filterMap.mp h
    cases ha : Urls.analyze_url u with
    | none => rw [ha] at hfu; exact absurd hfu (by simp)
    | some q =>
      rw [ha] at hfu
      dsimp only at hfu
      split_ifs at hfu with hv
      simp only [Option.some.injEq] at hfu
      rw [← hfu]
      exact hv
  · intro text urls url h
    obtain ⟨p, hp, hpu, hpe⟩ := analyze_url_shape url
    refine ⟨p, ?_, hpu, hpe⟩
    unfold Urls.extract_all
    exact List.mem_filterMap.mpr ⟨url, h, hp⟩

/-- Witness for C6 as amended: the attached URL https://github.com/foo has
the excluded domain github.com, and _analyze_url returns it flagged
invalid. -/
theorem C6_amended_witness :
    Urls.analyze_url "https://github.com/foo" =
      some { url := "https://github.com/foo", name := none,
             domain := Urls.domainOf "https://github.com/foo",
             is_valid_product := false } :=
  C6_amended_excluded_flagged.1 "https://github.com/foo" (by decide)

/-- C6 counterexample: with the single attached URL
https://twitter.com/someone (domain twitter.com, in the exclusion set),
extract returns the empty list — the excluded candidate is omitted, not
returned flagged — even though _analyze_url classifies it as invalid, and
extract_all does return it with the flag false. -/
theorem C6_counterexample :
    Urls.extract "" ["https://twitter.com/someone"] = [] ∧
    Urls.analyze_url "https://twitter.com/someone" =
      some { url := "https://twitter.com/someone", name := none,
             domain := "twitter.com", is_valid_product := false } ∧
    Urls.extract_all "" ["https://twitter.com/someone"] =
      [{ url := "https://twitter.com/someone", name := none,
         domain := "twitter.com", is_valid_product := false }] := by
  decide

end SaasFinder
